import Mathlib

/-!
Shallow embedding of the Sabueso Feliz veterinary clinic application
(`Core/views.py`, `Core/models.py`) and proofs about it.

Conventions of the embedding:
* Django querysets over a single table are lists of rows; a row's primary
  key is a `Nat` and a nullable foreign key is an `Option Nat`.
* Machine/database integers are modelled as `Int` (Django `PositiveIntegerField`
  columns are stated as `Int` so that non-negativity is a provable invariant
  rather than a typing artifact).
* `transaction.atomic` together with a raised `ValueError` is modelled by an
  `Except String` value: on `.error` the caller keeps the pre-transaction
  state (rollback), on `.ok` it adopts the post-transaction state.
* A parsed `"fid::cantidad"` entry of the `farmacos_utilizados` POST list is
  modelled as `Option (Nat × Int)`: `none` stands for an entry on which
  `entrada.split("::", 1)` / `int(...)` raises, `some (fid, cantidad)` for a
  successfully parsed pair.
-/

namespace Sabueso

/-- A user row of `Core.models.User` (the fields the views consult). -/
structure UserRec where
  id : Nat
  is_superuser : Bool
  rol : String
  sucursalId : Option Nat
  telefono : String
  deriving Repr, DecidableEq

/-- `Core.views._roles_con_sucursal`: the roles that are scoped to a branch. -/
def rolesConSucursal : List String := ["ADMIN", "ADMIN_OP", "VET"]

/-- Python truthiness of an optional integer id (`if not sucursal_id`). -/
def idTruthy : Option Nat → Bool
  | none => false
  | some n => n != 0

/-- `Core.views._filtrar_por_sucursal`, generic over the row type with a
projection giving the row's `<field_name>_id` value. -/
def filtrar_por_sucursal {α : Type} (queryset : List α) (user : UserRec)
    (fieldId : α → Option Nat) : List α :=
  if user.is_superuser then queryset
  else if ¬ (user.rol ∈ rolesConSucursal) then queryset
  else if ¬ (idTruthy user.sucursalId) then []
  else queryset.filter (fun row => fieldId row = user.sucursalId)

/-- `Core.views._usuario_puede_gestionar_sucursal`. -/
def usuario_puede_gestionar_sucursal (user : UserRec) (sucursalId : Option Nat) : Bool :=
  if user.is_superuser then true
  else if ¬ (user.rol ∈ rolesConSucursal) then false
  else sucursalId.isSome && sucursalId == user.sucursalId

/-- Python's `str.isdigit` restricted to the characters the app stores
(ASCII phone numbers). -/
def pyIsDigit (c : Char) : Bool := c.isDigit

/-- `"".join(ch for ch in s if ch.isdigit())`. -/
def soloDigitos (s : String) : String := String.mk (s.data.filter pyIsDigit)

/-- Python's `str.strip()`: whitespace removed from both ends. -/
def pyStrip (s : String) : String :=
  String.mk
    (((s.data.dropWhile Char.isWhitespace).reverse.dropWhile Char.isWhitespace).reverse)

/-- Python's `a or b` on strings: `a` when non-empty, else `b`. -/
def pyOrStr (a b : String) : String := if a ≠ "" then a else b

/-- `Core.models.Cita.telefono_contacto`, as a function of the owner's phone
(`propietario.telefono`) and the owner user's phone (`propietario.user.telefono`). -/
def telefono_contacto (propietarioTel userTel : String) : String :=
  let telefono := pyOrStr propietarioTel (pyOrStr userTel "")
  let telefono := pyStrip telefono
  if telefono = "" then "" else soloDigitos telefono

/-- `Core.models.Producto.telefono_whatsapp`, as a function of the stored
`telefono_contacto` column. -/
def telefono_whatsapp (telefonoContacto : String) : String :=
  let telefono := pyStrip (pyOrStr telefonoContacto "")
  soloDigitos telefono

/-! ## Data model for `atender_cita` (Core/views.py lines 2441-2762) -/

/-- A `Core.models.Farmaco` row (the columns the reconciliation reads). -/
structure FarmacoRec where
  id : Nat
  sucursalId : Nat
  nombre : String
  stock : Int
  deriving Repr, DecidableEq

/-- A `Core.models.CitaFarmaco` row belonging to the appointment being
attended (`cita` is fixed, so only the drug id and quantity remain). -/
structure RegistroFarmaco where
  farmacoId : Nat
  cantidad : Int
  deriving Repr, DecidableEq

/-- The fields of `Core.models.HistorialMedico` written by `atender_cita`. -/
structure Historial where
  pacienteId : Nat
  veterinarioId : Nat
  diagnostico : Option String
  tratamiento : Option String
  notas : Option String
  peso : Option String
  temperatura : Option String
  examenes : Option String
  proximo_control : Option String
  sin_proximo_control : Bool
  imagenes : Option String
  deriving Repr, DecidableEq

/-- The database state `atender_cita` reads and writes: the appointment row
(`estado`, assigned vet, branch), its one-to-one medical record, its
`CitaFarmaco` rows, and the `Farmaco` table. -/
structure Db where
  pacienteId : Nat
  sucursalId : Nat
  veterinarioId : Option Nat
  estado : String
  historial : Option Historial
  registros : List RegistroFarmaco
  farmacos : List FarmacoRec
  deriving Repr, DecidableEq

/-- The POST data of `atender_cita` (fields read from `request.POST` /
`request.FILES`). Each element of `entradas` is a parsed
`"fid::cantidad"` entry; `none` marks an entry on which parsing raises. -/
structure PostData where
  diagnostico : Option String
  tratamiento : Option String
  notas : Option String
  peso : Option String
  temperatura : Option String
  examenes : Option String
  proximo_control : Option String
  sin_proximo_control : Bool
  adjuntar_estudios : Bool
  utilizo_farmacos : Bool
  entradas : List (Option (Nat × Int))
  estudio_imagen : Option String
  deriving Repr, DecidableEq

/-- One step of the parse loop over `entradas_farmacos`: `none` when the
entry is rejected (parse failure or `cantidad <= 0`), `some` when it is
appended to `seleccion_post`. -/
def entradaValida : Option (Nat × Int) → Option (Nat × Int)
  | none => none
  | some (fid, cantidad) => if cantidad ≤ 0 then none else some (fid, cantidad)

/-- `seleccion_post`: the accepted `(farmaco_id, cantidad)` pairs. -/
def seleccionPost (entradas : List (Option (Nat × Int))) : List (Nat × Int) :=
  entradas.filterMap entradaValida

/-- Whether the parse loop added at least one message to `mensajes_error`. -/
def hayErrorEntrada (entradas : List (Option (Nat × Int))) : Bool :=
  entradas.any (fun e => (entradaValida e).isNone)

/-- `mensajes_error` is non-empty: some entry was rejected, or medication use
is enabled and `seleccion_post` came out empty. -/
def hayMensajesError (utilizo : Bool) (entradas : List (Option (Nat × Int))) : Bool :=
  hayErrorEntrada entradas || (utilizo && (seleccionPost entradas).isEmpty)

/-- `nuevos_map = {fid: cantidad for fid, cantidad in seleccion_post}` as a
lookup function: the value of the last pair carrying the key, as in a
Python dict comprehension where a later pair overwrites an earlier one. -/
def nuevosMap (sel : List (Nat × Int)) (fid : Nat) : Option Int :=
  (sel.reverse.find? (fun p => p.1 = fid)).map Prod.snd

/-- The key set of `nuevos_map` as a duplicate-free list. -/
def nuevosKeys (sel : List (Nat × Int)) : List Nat :=
  (sel.map Prod.fst).dedup

/-- Lookup of the appointment's `CitaFarmaco` row for a drug
(`existentes.get(fid)`); `(cita, farmaco)` is unique, so `find?` is the
dictionary built at line 2612. -/
def regLookup (registros : List RegistroFarmaco) (fid : Nat) : Option RegistroFarmaco :=
  registros.find? (fun r => r.farmacoId = fid)

/-- `anterior.cantidad if anterior else 0`. -/
def anteriorCantidad (registros : List RegistroFarmaco) (fid : Nat) : Int :=
  ((regLookup registros fid).map RegistroFarmaco.cantidad).getD 0

/-- `nuevos_map.get(fid, 0)`. -/
def nuevaCantidad (sel : List (Nat × Int)) (fid : Nat) : Int :=
  (nuevosMap sel fid).getD 0

/-- `delta = nueva_cantidad - anterior_cantidad`. -/
def deltaDe (registros : List RegistroFarmaco) (sel : List (Nat × Int)) (fid : Nat) : Int :=
  nuevaCantidad sel fid - anteriorCantidad registros fid

/-- `ids_para_bloquear = set(existentes.keys()) | set(nuevos_map.keys())`
as a duplicate-free list (set iteration order is immaterial: every use is
per-key). -/
def idsParaBloquear (registros : List RegistroFarmaco) (sel : List (Nat × Int)) : List Nat :=
  (registros.map RegistroFarmaco.farmacoId ++ sel.map Prod.fst).dedup

/-- `farmacos_map` lookup: the branch inventory row for a drug id
(`Farmaco.objects.filter(sucursal=cita.sucursal, id__in=...)`). -/
def farmacoEnSucursal (farmacos : List FarmacoRec) (suc fid : Nat) : Option FarmacoRec :=
  farmacos.find? (fun f => f.id = fid ∧ f.sucursalId = suc)

/-- `Farmaco.objects.filter(id=fid, sucursal=suc).update(stock=F("stock") - delta)`. -/
def updateStockMenos (suc fid : Nat) (delta : Int) (farmacos : List FarmacoRec) :
    List FarmacoRec :=
  farmacos.map (fun f =>
    if f.id = fid ∧ f.sucursalId = suc then { f with stock := f.stock - delta } else f)

/-- The second `for fid in ids_para_bloquear` loop: apply every non-zero
stock delta. -/
def aplicarDeltas (suc : Nat) (registros : List RegistroFarmaco)
    (sel : List (Nat × Int)) (ids : List Nat) (farmacos : List FarmacoRec) :
    List FarmacoRec :=
  ids.foldl (fun fs fid =>
    let delta := deltaDe registros sel fid
    if delta ≠ 0 then updateStockMenos suc fid delta fs else fs) farmacos

/-- The third and fourth loops: every key of `nuevos_map` gets a
`CitaFarmaco` row with the new quantity (updated in place when one exists,
created otherwise), and every pre-existing row whose drug is no longer in
`nuevos_map` is deleted. -/
def registrosFinales (registros : List RegistroFarmaco) (sel : List (Nat × Int)) :
    List RegistroFarmaco :=
  registros.filterMap (fun r =>
      (nuevosMap sel r.farmacoId).map (fun c => { r with cantidad := c }))
    ++ ((nuevosKeys sel).filter (fun fid => (regLookup registros fid).isNone)).filterMap
        (fun fid => (nuevosMap sel fid).map (fun c => ⟨fid, c⟩))

/-- The medication-enabled half of the transaction body (lines 2611-2674).
A raised `ValueError` becomes `.error`. -/
def reconciliarFarmacos (db : Db) (sel : List (Nat × Int)) : Except String Db :=
  if (idsParaBloquear db.registros sel).isEmpty then .ok db
  else if (idsParaBloquear db.registros sel).any
      (fun fid => (farmacoEnSucursal db.farmacos db.sucursalId fid).isNone) then
    .error "Uno de los fármacos seleccionados ya no pertenece al inventario de la sucursal."
  else
    match (idsParaBloquear db.registros sel).find? (fun fid =>
        deltaDe db.registros sel fid > 0 ∧
          ((farmacoEnSucursal db.farmacos db.sucursalId fid).map
            FarmacoRec.stock).getD 0 < deltaDe db.registros sel fid) with
    | some fid =>
        .error ("Stock insuficiente para "
          ++ (((farmacoEnSucursal db.farmacos db.sucursalId fid).map
                FarmacoRec.nombre).getD "")
          ++ ". Disponible: "
          ++ toString (((farmacoEnSucursal db.farmacos db.sucursalId fid).map
                FarmacoRec.stock).getD 0)
          ++ ".")
    | none =>
        .ok { db with
          farmacos := aplicarDeltas db.sucursalId db.registros sel
            (idsParaBloquear db.registros sel) db.farmacos
          registros := registrosFinales db.registros sel }

/-- `Farmaco.objects.filter(id=..., sucursal=...).update(stock=F("stock") + cantidad)`
for every pre-existing row, then delete the rows: the medication-disabled
half of the transaction body (lines 2675-2684). -/
def devolverStock (suc : Nat) (registros : List RegistroFarmaco)
    (farmacos : List FarmacoRec) : List FarmacoRec :=
  registros.foldl (fun fs r =>
    fs.map (fun f =>
      if f.id = r.farmacoId ∧ f.sucursalId = suc then
        { f with stock := f.stock + r.cantidad }
      else f)) farmacos

/-- Per-row effect of the stock-return loop, used to characterise
`devolverStock`. -/
def devolucionPorRegistro (suc : Nat) (registros : List RegistroFarmaco)
    (f : FarmacoRec) : FarmacoRec :=
  match regLookup registros f.id with
  | some r => if f.sucursalId = suc then { f with stock := f.stock + r.cantidad } else f
  | none => f

/-- The `historial_defaults` written by `update_or_create`: on update the
`imagenes` field keeps its old value unless a new study image is attached. -/
def mkHistorial (user : UserRec) (db : Db) (req : PostData) : Historial :=
  let proximo := if req.sin_proximo_control then none else req.proximo_control
  let imagenPrevia := (db.historial.map Historial.imagenes).getD none
  { pacienteId := db.pacienteId
    veterinarioId := user.id
    diagnostico := req.diagnostico
    tratamiento := req.tratamiento
    notas := req.notas
    peso := req.peso
    temperatura := req.temperatura
    examenes := req.examenes
    proximo_control := proximo
    sin_proximo_control := req.sin_proximo_control
    imagenes := if req.adjuntar_estudios && req.estudio_imagen.isSome then
        req.estudio_imagen
      else imagenPrevia }

/-- The whole `transaction.atomic()` block (lines 2586-2684): record the
medical history, mark the appointment attended, then reconcile the
medication usage; `.error` stands for a rollback-inducing `ValueError`. -/
def transaccionAtender (user : UserRec) (db : Db) (req : PostData)
    (sel : List (Nat × Int)) : Except String Db :=
  let db1 := { db with historial := some (mkHistorial user db req), estado := "atendida" }
  if req.utilizo_farmacos then
    reconciliarFarmacos db1 sel
  else
    .ok { db1 with
      farmacos := devolverStock db1.sucursalId db1.registros db1.farmacos
      registros := [] }

/-- Where the response sends the browser. -/
inductive Destino where
  | dashboard
  | detalleCita (citaId : Nat)
  | renderForm
  deriving Repr, DecidableEq

/-- Outcome of one `atender_cita` POST: the database afterwards, the
redirect (or re-render), and whether `messages.error` fired. -/
structure AtenderResult where
  db : Db
  destino : Destino
  huboError : Bool
  deriving Repr, DecidableEq

/-- `Core.views.atender_cita` on a POST request: the permission guards
(lines 2448-2464) followed by validation and the transactional body
(lines 2526-2693). -/
def atender_cita (user : UserRec) (citaId : Nat) (db : Db) (req : PostData) :
    AtenderResult :=
  if user.rol ≠ "VET" then ⟨db, .dashboard, true⟩
  else if ¬ usuario_puede_gestionar_sucursal user (some db.sucursalId) then
    ⟨db, .dashboard, true⟩
  else if idTruthy db.veterinarioId && db.veterinarioId != some user.id then
    ⟨db, .dashboard, true⟩
  else if hayMensajesError req.utilizo_farmacos req.entradas then
    ⟨db, .renderForm, true⟩
  else
    match transaccionAtender user db req (seleccionPost req.entradas) with
    | .error _ => ⟨db, .renderForm, true⟩
    | .ok db' => ⟨db', .detalleCita citaId, false⟩

/-! ## Report export (`_format_excel_value`, `_excel_sections_response`,
Core/views.py lines 169-237) -/

/-- A value placed in a report cell (the Python types the exports put in
`rows`). Datetimes are carried already in local wall-clock fields, mirroring
`timezone.localtime`. -/
inductive ExcelValue where
  | null
  | str (s : String)
  | boolean (b : Bool)
  | int (n : Int)
  | date (d m y : Nat)
  | datetime (d m y hh mm : Nat)
  deriving Repr, DecidableEq

/-- Zero-padded two-digit rendering used by `strftime("%d"/"%m"/"%H"/"%M")`. -/
def pad2 (n : Nat) : String :=
  if n < 10 then "0" ++ toString n else toString n

/-- Zero-padded four-digit year rendering used by `strftime("%Y")`. -/
def pad4 (n : Nat) : String :=
  if n < 10 then "000" ++ toString n
  else if n < 100 then "00" ++ toString n
  else if n < 1000 then "0" ++ toString n
  else toString n

/-- `Core.views._format_excel_value`. -/
def format_excel_value : ExcelValue → String
  | .null => ""
  | .datetime d m y hh mm =>
      pad2 d ++ "/" ++ pad2 m ++ "/" ++ pad4 y ++ " " ++ pad2 hh ++ ":" ++ pad2 mm
  | .date d m y => pad2 d ++ "/" ++ pad2 m ++ "/" ++ pad4 y
  | .boolean b => if b then "Sí" else "No"
  | .str s => s
  | .int n => toString n

/-- `django.utils.html.escape` on one character. -/
def escapeChar (c : Char) : String :=
  if c = '&' then "&amp;"
  else if c = '<' then "&lt;"
  else if c = '>' then "&gt;"
  else if c = '"' then "&quot;"
  else if c = '\'' then "&#x27;"
  else String.singleton c

/-- `django.utils.html.escape` on a character list. -/
def escapeList : List Char → List Char
  | [] => []
  | c :: cs => (escapeChar c).data ++ escapeList cs

/-- `django.utils.html.escape`. -/
def escape (s : String) : String := String.mk (escapeList s.data)

/-- `str.replace("\n", "<br>")` on a character list. -/
def replaceNewlinesList : List Char → List Char
  | [] => []
  | c :: cs =>
      (if c = '\n' then "<br>".data else [c]) ++ replaceNewlinesList cs

/-- `str.replace("\n", "<br>")`. -/
def replaceNewlines (s : String) : String := String.mk (replaceNewlinesList s.data)

/-- One section passed to `_excel_sections_response` (`title`, `description`,
`headers`, `rows` of the Python dict; a missing/None entry is the empty
string resp. the empty list, which the code treats identically). -/
structure Seccion where
  title : String
  description : String
  headers : List String
  rows : List (List ExcelValue)
  deriving Repr, DecidableEq

/-- The `<td>` parts of one data row. -/
def rowHtml (row : List ExcelValue) : String :=
  "<tr>"
    ++ String.join (row.map (fun value =>
        "<td>" ++ replaceNewlines (escape (format_excel_value value)) ++ "</td>"))
    ++ "</tr>"

/-- The parts `_excel_sections_response` appends for one section. -/
def seccionHtml (s : Seccion) : String :=
  (if s.title ≠ "" then
      "<h2 style='color:#0f172a;margin-bottom:0.35rem;'>" ++ escape s.title ++ "</h2>"
    else "")
  ++ (if s.description ≠ "" then
      "<p style='margin-top:0;margin-bottom:0.8rem;color:#334155;'>"
        ++ escape s.description ++ "</p>"
    else "")
  ++ "<table border='1' cellspacing='0' cellpadding='6' style='border-collapse:collapse;margin-bottom:1.5rem;width:100%;'>"
  ++ (if s.headers ≠ [] then
      "<thead><tr>"
        ++ String.join (s.headers.map (fun header =>
            "<th style='background-color:#0f172a;color:#ffffff;text-align:left;'>"
              ++ escape header ++ "</th>"))
        ++ "</tr></thead>"
    else "")
  ++ "<tbody>"
  ++ (if s.rows ≠ [] then String.join (s.rows.map rowHtml)
    else
      "<tr><td colspan='" ++ toString (max s.headers.length 1)
        ++ "' style='text-align:center;color:#64748b;'>Sin registros disponibles</td></tr>")
  ++ "</tbody></table>"

/-- The literal no-data row `_excel_sections_response` emits for a section
without rows. -/
def sinRegistrosRow (colspan : Nat) : String :=
  "<tr><td colspan='" ++ toString colspan
    ++ "' style='text-align:center;color:#64748b;'>Sin registros disponibles</td></tr>"

/-- The `HttpResponse` the export builds. -/
structure HttpResponseRec where
  contentType : String
  contentDisposition : String
  body : String
  deriving Repr, DecidableEq

/-- `Core.views._excel_sections_response`. -/
def excel_sections_response (filename : String) (sections : List Seccion) :
    HttpResponseRec :=
  { contentType := "application/vnd.ms-excel"
    contentDisposition := "attachment; filename=" ++ filename
    body :=
      "<html><head><meta charset='utf-8'></head>"
        ++ "<body style='font-family:Arial,Helvetica,sans-serif;font-size:13px;'>"
        ++ String.join (sections.map seccionHtml)
        ++ "</body></html>" }

/-! ## Helper lemmas -/

lemma mem_escapeList {c : Char} : ∀ {cs : List Char}, c ∈ escapeList cs →
    c ≠ '<' ∧ c ≠ '>' := by
  intro cs
  induction cs with
  | nil => intro hc; simp [escapeList] at hc
  | cons a cs ih =>
      intro hc
      simp only [escapeList, List.mem_append] at hc
      rcases hc with h | h
      · revert h
        unfold escapeChar
        split_ifs with h1 h2 h3 h4 h5 <;> intro h
        · rw [show ("&amp;" : String).data = ['&', 'a', 'm', 'p', ';'] from rfl] at h
          simp only [List.mem_cons, List.not_mem_nil, or_false] at h
          rcases h with rfl | rfl | rfl | rfl | rfl <;> exact ⟨by decide, by decide⟩
        · rw [show ("&lt;" : String).data = ['&', 'l', 't', ';'] from rfl] at h
          simp only [List.mem_cons, List.not_mem_nil, or_false] at h
          rcases h with rfl | rfl | rfl | rfl <;> exact ⟨by decide, by decide⟩
        · rw [show ("&gt;" : String).data = ['&', 'g', 't', ';'] from rfl] at h
          simp only [List.mem_cons, List.not_mem_nil, or_false] at h
          rcases h with rfl | rfl | rfl | rfl <;> exact ⟨by decide, by decide⟩
        · rw [show ("&quot;" : String).data = ['&', 'q', 'u', 'o', 't', ';'] from rfl] at h
          simp only [List.mem_cons, List.not_mem_nil, or_false] at h
          rcases h with rfl | rfl | rfl | rfl | rfl | rfl <;> exact ⟨by decide, by decide⟩
        · rw [show ("&#x27;" : String).data = ['&', '#', 'x', '2', '7', ';'] from rfl] at h
          simp only [List.mem_cons, List.not_mem_nil, or_false] at h
          rcases h with rfl | rfl | rfl | rfl | rfl | rfl <;> exact ⟨by decide, by decide⟩
        · rw [show (String.singleton a).data = [a] from rfl] at h
          simp only [List.mem_cons, List.not_mem_nil, or_false] at h
          subst h
          exact ⟨h2, h3⟩
      · exact ih h

lemma data_soloDigitos (s : String) : (soloDigitos s).data = s.data.filter pyIsDigit := rfl

lemma nuevosMap_isSome {sel : List (Nat × Int)} {fid : Nat} :
    (nuevosMap sel fid).isSome ↔ fid ∈ sel.map Prod.fst := by
  unfold nuevosMap
  rw [Option.isSome_map']
  rw [List.find?_isSome]
  constructor
  · rintro ⟨p, hp, hfid⟩
    simp only [decide_eq_true_eq] at hfid
    exact List.mem_map.mpr ⟨p, List.mem_reverse.mp hp, hfid⟩
  · intro h
    obtain ⟨p, hp, hfid⟩ := List.mem_map.mp h
    exact ⟨p, List.mem_reverse.mpr hp, by simp [hfid]⟩

lemma mem_nuevosKeys {sel : List (Nat × Int)} {fid : Nat} :
    fid ∈ nuevosKeys sel ↔ fid ∈ sel.map Prod.fst := List.mem_dedup

lemma mem_idsParaBloquear {registros : List RegistroFarmaco} {sel : List (Nat × Int)}
    {fid : Nat} :
    fid ∈ idsParaBloquear registros sel ↔
      fid ∈ registros.map RegistroFarmaco.farmacoId ∨ fid ∈ sel.map Prod.fst := by
  unfold idsParaBloquear
  rw [List.mem_dedup, List.mem_append]

lemma nodup_idsParaBloquear (registros : List RegistroFarmaco)
    (sel : List (Nat × Int)) : (idsParaBloquear registros sel).Nodup :=
  List.nodup_dedup _

lemma regLookup_isSome {registros : List RegistroFarmaco} {fid : Nat} :
    (regLookup registros fid).isSome ↔ fid ∈ registros.map RegistroFarmaco.farmacoId := by
  unfold regLookup
  rw [List.find?_isSome]
  constructor
  · rintro ⟨r, hr, hfid⟩
    simp only [decide_eq_true_eq] at hfid
    exact List.mem_map.mpr ⟨r, hr, hfid⟩
  · intro h
    obtain ⟨r, hr, hfid⟩ := List.mem_map.mp h
    exact ⟨r, hr, by simp [hfid]⟩

lemma find?_map_of_pres {α : Type} (g : α → α) (p : α → Bool)
    (hp : ∀ f, p (g f) = p f) :
    ∀ (l : List α), (l.map g).find? p = (l.find? p).map g := by
  intro l
  induction l with
  | nil => rfl
  | cons a l ih =>
      by_cases hpa : p a = true
      · rw [List.map_cons, List.find?_cons_of_pos _ (by rw [hp]; exact hpa),
          List.find?_cons_of_pos _ hpa, Option.map_some']
      · rw [List.map_cons, List.find?_cons_of_neg _ (by rw [hp]; exact hpa),
          List.find?_cons_of_neg _ hpa, ih]

lemma farmacoEnSucursal_map {g : FarmacoRec → FarmacoRec}
    (hid : ∀ f, (g f).id = f.id) (hsuc : ∀ f, (g f).sucursalId = f.sucursalId)
    (fs : List FarmacoRec) (suc fid : Nat) :
    farmacoEnSucursal (fs.map g) suc fid = (farmacoEnSucursal fs suc fid).map g := by
  unfold farmacoEnSucursal
  exact find?_map_of_pres g _ (fun f => by simp [hid, hsuc]) fs

/-- Pointwise description of the stock-delta loop: each inventory row of the
branch whose id is among the locked ids loses exactly its delta. -/
lemma aplicarDeltas_eq_map (suc : Nat) (registros : List RegistroFarmaco)
    (sel : List (Nat × Int)) :
    ∀ (ids : List Nat), ids.Nodup → ∀ (fs : List FarmacoRec),
    aplicarDeltas suc registros sel ids fs
      = fs.map (fun f =>
          if f.sucursalId = suc ∧ f.id ∈ ids then
            { f with stock := f.stock - deltaDe registros sel f.id }
          else f) := by
  intro ids
  induction ids with
  | nil =>
      intro _ fs
      simp [aplicarDeltas]
  | cons fid ids ih =>
      intro hnd fs
      obtain ⟨hfid, hnd'⟩ := List.nodup_cons.mp hnd
      have hstep : aplicarDeltas suc registros sel (fid :: ids) fs
          = aplicarDeltas suc registros sel ids
              (if deltaDe registros sel fid ≠ 0 then
                updateStockMenos suc fid (deltaDe registros sel fid) fs
              else fs) := by
        unfold aplicarDeltas
        rw [List.foldl_cons]
      rw [hstep, ih hnd']
      by_cases hδ : deltaDe registros sel fid = 0
      · rw [if_neg (by simp [hδ])]
        apply List.map_congr_left
        intro f _
        by_cases h1 : f.sucursalId = suc
        · by_cases h3 : f.id = fid
          · subst h3
            rw [if_neg (fun h => hfid h.2),
              if_pos ⟨h1, List.mem_cons_self _ _⟩, hδ, sub_zero]
          · simp [h1, List.mem_cons, h3]
        · simp [h1]
      · rw [if_pos hδ]
        unfold updateStockMenos
        rw [List.map_map]
        apply List.map_congr_left
        intro f _
        simp only [Function.comp_apply]
        by_cases h1 : f.sucursalId = suc
        · by_cases h3 : f.id = fid
          · subst h3
            have hu : (if f.id = f.id ∧ f.sucursalId = suc then
                ({ f with stock := f.stock - deltaDe registros sel f.id } : FarmacoRec)
              else f)
                = { f with stock := f.stock - deltaDe registros sel f.id } :=
              if_pos ⟨rfl, h1⟩
            rw [hu]
            rw [if_neg (fun h => hfid h.2)]
            rw [if_pos ⟨h1, List.mem_cons_self _ _⟩]
          · have hu : (if f.id = fid ∧ f.sucursalId = suc then
                ({ f with stock := f.stock - deltaDe registros sel fid } : FarmacoRec)
              else f) = f := if_neg (fun h => h3 h.1)
            rw [hu]
            simp [h1, List.mem_cons, h3]
        · have hu : (if f.id = fid ∧ f.sucursalId = suc then
              ({ f with stock := f.stock - deltaDe registros sel fid } : FarmacoRec)
            else f) = f := if_neg (fun h => h1 h.2)
          rw [hu]
          simp [h1]

lemma devolucionPorRegistro_of_none {suc : Nat} {registros : List RegistroFarmaco}
    {f : FarmacoRec} (h : regLookup registros f.id = none) :
    devolucionPorRegistro suc registros f = f := by
  unfold devolucionPorRegistro
  rw [h]

lemma devolucionPorRegistro_of_some {suc : Nat} {registros : List RegistroFarmaco}
    {f : FarmacoRec} {r : RegistroFarmaco} (h : regLookup registros f.id = some r) :
    devolucionPorRegistro suc registros f
      = if f.sucursalId = suc then { f with stock := f.stock + r.cantidad } else f := by
  unfold devolucionPorRegistro
  rw [h]

/-- Pointwise description of the stock-return loop of the
medication-disabled branch: each branch inventory row with a previous
`CitaFarmaco` row gets its previously dispensed quantity back. -/
lemma devolverStock_eq_map (suc : Nat) :
    ∀ (registros : List RegistroFarmaco),
      (registros.map RegistroFarmaco.farmacoId).Nodup →
    ∀ (fs : List FarmacoRec),
    devolverStock suc registros fs
      = fs.map (devolucionPorRegistro suc registros) := by
  intro registros
  induction registros with
  | nil =>
      intro _ fs
      have hpt : ∀ f : FarmacoRec, devolucionPorRegistro suc [] f = f := fun f =>
        devolucionPorRegistro_of_none rfl
      show fs = _
      symm
      calc fs.map (devolucionPorRegistro suc [])
          = fs.map id := List.map_congr_left (fun f _ => hpt f)
        _ = fs := List.map_id fs
  | cons r registros ih =>
      intro hnd fs
      rw [List.map_cons, List.nodup_cons] at hnd
      obtain ⟨hr, hnd'⟩ := hnd
      have hstep : devolverStock suc (r :: registros) fs
          = devolverStock suc registros
              (fs.map (fun f =>
                if f.id = r.farmacoId ∧ f.sucursalId = suc then
                  { f with stock := f.stock + r.cantidad }
                else f)) := by
        unfold devolverStock
        rw [List.foldl_cons]
      rw [hstep, ih hnd', List.map_map]
      apply List.map_congr_left
      intro f _
      simp only [Function.comp_apply]
      by_cases h4 : f.id = r.farmacoId
      · have hnone : regLookup registros f.id = none := by
          apply List.find?_eq_none.mpr
          intro x hx
          simp only [decide_eq_true_eq]
          intro hxf
          apply hr
          rw [← h4, ← hxf]
          exact List.mem_map.mpr ⟨x, hx, rfl⟩
        have hcons : regLookup (r :: registros) f.id = some r :=
          List.find?_cons_of_pos _ (by simp [h4.symm])
        by_cases h3b : f.sucursalId = suc
        · have hu : (if f.id = r.farmacoId ∧ f.sucursalId = suc then
              ({ f with stock := f.stock + r.cantidad } : FarmacoRec) else f)
              = { f with stock := f.stock + r.cantidad } := if_pos ⟨h4, h3b⟩
          rw [hu]
          rw [show devolucionPorRegistro suc registros
              ({ f with stock := f.stock + r.cantidad } : FarmacoRec)
              = { f with stock := f.stock + r.cantidad } from
            devolucionPorRegistro_of_none hnone]
          rw [devolucionPorRegistro_of_some hcons, if_pos h3b]
        · have hu : (if f.id = r.farmacoId ∧ f.sucursalId = suc then
              ({ f with stock := f.stock + r.cantidad } : FarmacoRec) else f)
              = f := if_neg (fun h => h3b h.2)
          rw [hu, devolucionPorRegistro_of_none hnone,
            devolucionPorRegistro_of_some hcons, if_neg h3b]
      · have hcons : regLookup (r :: registros) f.id = regLookup registros f.id :=
          List.find?_cons_of_neg _
            (by simp only [decide_eq_true_eq]; exact fun h => h4 h.symm)
        have hu : (if f.id = r.farmacoId ∧ f.sucursalId = suc then
            ({ f with stock := f.stock + r.cantidad } : FarmacoRec) else f)
            = f := if_neg (fun h => h4 h.1)
        rw [hu]
        unfold devolucionPorRegistro
        rw [hcons]

lemma find?_actualizados (sel : List (Nat × Int)) (fid : Nat) :
    ∀ (registros : List RegistroFarmaco),
      (registros.map RegistroFarmaco.farmacoId).Nodup →
    ((registros.filterMap (fun r =>
        (nuevosMap sel r.farmacoId).map (fun c => { r with cantidad := c }))).find?
      (fun r => r.farmacoId = fid))
    = match regLookup registros fid with
      | some r => (nuevosMap sel fid).map (fun c => { r with cantidad := c })
      | none => none := by
  intro registros
  induction registros with
  | nil => intro _; rfl
  | cons r rest ih =>
      intro hnd
      rw [List.map_cons, List.nodup_cons] at hnd
      obtain ⟨hr, hnd'⟩ := hnd
      cases hm : nuevosMap sel r.farmacoId with
      | some c =>
          rw [List.filterMap_cons_some (by rw [hm]; rfl)]
          by_cases h4 : r.farmacoId = fid
          · have hmfid : nuevosMap sel fid = some c := by rw [← h4]; exact hm
            rw [List.find?_cons_of_pos _ (by simp only [decide_eq_true_eq]; exact h4)]
            have hcons : regLookup (r :: rest) fid = some r :=
              List.find?_cons_of_pos _ (by simp [h4])
            rw [hcons, hmfid]
            rfl
          · rw [List.find?_cons_of_neg _ (by simp only [decide_eq_true_eq]; exact h4)]
            have hcons : regLookup (r :: rest) fid = regLookup rest fid :=
              List.find?_cons_of_neg _ (by simp [h4])
            rw [ih hnd', hcons]
      | none =>
          rw [List.filterMap_cons_none (by rw [hm]; rfl)]
          by_cases h4 : r.farmacoId = fid
          · have hmfid : nuevosMap sel fid = none := by rw [← h4]; exact hm
            have hnone : regLookup rest fid = none := by
              apply List.find?_eq_none.mpr
              intro x hx
              simp only [decide_eq_true_eq]
              intro hxf
              exact hr (List.mem_map.mpr ⟨x, hx, hxf.trans h4.symm⟩)
            have hcons : regLookup (r :: rest) fid = some r :=
              List.find?_cons_of_pos _ (by simp [h4])
            rw [ih hnd', hnone, hcons, hmfid]
            rfl
          · have hcons : regLookup (r :: rest) fid = regLookup rest fid :=
              List.find?_cons_of_neg _ (by simp [h4])
            rw [ih hnd', hcons]

lemma find?_creaciones (sel : List (Nat × Int)) (fid : Nat) :
    ∀ (ks : List Nat),
    ((ks.filterMap (fun k =>
        (nuevosMap sel k).map (fun c => (⟨k, c⟩ : RegistroFarmaco)))).find?
      (fun r => r.farmacoId = fid))
    = if fid ∈ ks then (nuevosMap sel fid).map (fun c => ⟨fid, c⟩) else none := by
  intro ks
  induction ks with
  | nil => rfl
  | cons k ks ih =>
      by_cases h4 : k = fid
      · subst h4
        cases hm : nuevosMap sel k with
        | some c =>
            rw [List.filterMap_cons_some (by rw [hm]; rfl)]
            rw [List.find?_cons_of_pos _ (by simp)]
            rw [if_pos (List.mem_cons_self _ _)]
            rfl
        | none =>
            rw [List.filterMap_cons_none (by rw [hm]; rfl)]
            rw [ih, hm]
            by_cases hmem : k ∈ ks
            · rw [if_pos hmem, if_pos (List.mem_cons_self _ _)]
            · rw [if_neg hmem, if_pos (List.mem_cons_self _ _)]
              rfl
      · have hmem : (fid ∈ k :: ks) ↔ fid ∈ ks := by
          rw [List.mem_cons]
          exact or_iff_right (fun h => h4 h.symm)
        cases hm : nuevosMap sel k with
        | some c =>
            rw [List.filterMap_cons_some (by rw [hm]; rfl)]
            rw [List.find?_cons_of_neg _ (by simp [h4]), ih]
            by_cases hmem' : fid ∈ ks
            · rw [if_pos hmem', if_pos (hmem.mpr hmem')]
            · rw [if_neg hmem', if_neg (fun h => hmem' (hmem.mp h))]
        | none =>
            rw [List.filterMap_cons_none (by rw [hm]; rfl)]
            rw [ih]
            by_cases hmem' : fid ∈ ks
            · rw [if_pos hmem', if_pos (hmem.mpr hmem')]
            · rw [if_neg hmem', if_neg (fun h => hmem' (hmem.mp h))]

/-- After the reconciliation, the appointment carries exactly the rows of
`nuevos_map`: quantity looked up by drug id equals the new selection. -/
lemma regLookup_registrosFinales (registros : List RegistroFarmaco)
    (sel : List (Nat × Int)) (fid : Nat)
    (hnd : (registros.map RegistroFarmaco.farmacoId).Nodup) :
    (regLookup (registrosFinales registros sel) fid).map RegistroFarmaco.cantidad
      = nuevosMap sel fid := by
  have hsplit : regLookup (registrosFinales registros sel) fid
      = (List.find? (fun r => decide (r.farmacoId = fid))
          (registros.filterMap (fun r =>
            (nuevosMap sel r.farmacoId).map (fun c => { r with cantidad := c })))).or
        (List.find? (fun r => decide (r.farmacoId = fid))
          (((nuevosKeys sel).filter (fun k => (regLookup registros k).isNone)).filterMap
            (fun k => (nuevosMap sel k).map (fun c => ⟨k, c⟩)))) := by
    unfold registrosFinales regLookup
    exact List.find?_append
  rw [hsplit]
  rw [find?_actualizados sel fid registros hnd, find?_creaciones sel fid]
  cases hreg : regLookup registros fid with
  | some r =>
      have hks : ¬ fid ∈ (nuevosKeys sel).filter
          (fun k => (regLookup registros k).isNone) := by
        intro hmem
        have := (List.mem_filter.mp hmem).2
        rw [hreg] at this
        simp at this
      rw [if_neg hks]
      rw [Option.or_none, Option.map_map]
      cases hm : nuevosMap sel fid with
      | some c => rfl
      | none => rfl
  | none =>
      rw [Option.none_or]
      by_cases hsome : (nuevosMap sel fid).isSome
      · have hks : fid ∈ (nuevosKeys sel).filter
            (fun k => (regLookup registros k).isNone) := by
          apply List.mem_filter.mpr
          refine ⟨mem_nuevosKeys.mpr (nuevosMap_isSome.mp hsome), ?_⟩
          rw [hreg]; rfl
        rw [if_pos hks, Option.map_map]
        cases hm : nuevosMap sel fid with
        | some c => rfl
        | none => rw [hm] at hsome; simp at hsome
      · have hnone : nuevosMap sel fid = none := by
          cases hm : nuevosMap sel fid with
          | some c => rw [hm] at hsome; simp at hsome
          | none => rfl
        rw [hnone]
        by_cases hks : fid ∈ (nuevosKeys sel).filter
            (fun k => (regLookup registros k).isNone)
        · rw [if_pos hks]; rfl
        · rw [if_neg hks]; rfl

/-- The database state after the history record and appointment status
updates at the start of the transaction body. -/
lemma reconciliarFarmacos_ok_spec (db : Db) (sel : List (Nat × Int)) (db' : Db)
    (hne : idsParaBloquear db.registros sel ≠ [])
    (h : reconciliarFarmacos db sel = .ok db') :
    (∀ fid ∈ idsParaBloquear db.registros sel,
        (farmacoEnSucursal db.farmacos db.sucursalId fid).isSome) ∧
    (∀ fid ∈ idsParaBloquear db.registros sel,
        ¬(deltaDe db.registros sel fid > 0 ∧
          ((farmacoEnSucursal db.farmacos db.sucursalId fid).map FarmacoRec.stock).getD 0
            < deltaDe db.registros sel fid)) ∧
    db' = { db with
      farmacos := aplicarDeltas db.sucursalId db.registros sel
        (idsParaBloquear db.registros sel) db.farmacos
      registros := registrosFinales db.registros sel } := by
  unfold reconciliarFarmacos at h
  rw [if_neg (by simpa using hne)] at h
  by_cases hfal : (idsParaBloquear db.registros sel).any
      (fun fid => (farmacoEnSucursal db.farmacos db.sucursalId fid).isNone) = true
  · rw [if_pos hfal] at h
    exact Except.noConfusion h
  · rw [if_neg hfal] at h
    cases hfind : (idsParaBloquear db.registros sel).find? (fun fid =>
        decide (deltaDe db.registros sel fid > 0 ∧
          ((farmacoEnSucursal db.farmacos db.sucursalId fid).map FarmacoRec.stock).getD 0
            < deltaDe db.registros sel fid)) with
    | some fid =>
        rw [hfind] at h
        exact Except.noConfusion h
    | none =>
        rw [hfind] at h
        refine ⟨?_, ?_, (Except.ok.inj h).symm⟩
        · intro fid hfid
          cases ho : farmacoEnSucursal db.farmacos db.sucursalId fid with
          | some f => rfl
          | none =>
              exact absurd (List.any_eq_true.mpr ⟨fid, hfid, by rw [ho]; rfl⟩) hfal
        · intro fid hfid
          have := List.find?_eq_none.mp hfind fid hfid
          simpa using this

lemma reconciliarFarmacos_error_of_bad (db : Db) (sel : List (Nat × Int))
    (hbad : (∃ fid ∈ idsParaBloquear db.registros sel,
        (farmacoEnSucursal db.farmacos db.sucursalId fid).isNone) ∨
      (∃ fid ∈ idsParaBloquear db.registros sel,
        deltaDe db.registros sel fid > 0 ∧
          ((farmacoEnSucursal db.farmacos db.sucursalId fid).map FarmacoRec.stock).getD 0
            < deltaDe db.registros sel fid)) :
    ∃ msg, reconciliarFarmacos db sel = .error msg := by
  have hne : ¬ (idsParaBloquear db.registros sel).isEmpty = true := by
    rcases hbad with ⟨fid, hfid, _⟩ | ⟨fid, hfid, _⟩ <;>
      exact fun hemp => by
        rw [List.isEmpty_iff] at hemp
        rw [hemp] at hfid
        simp at hfid
  unfold reconciliarFarmacos
  rw [if_neg hne]
  by_cases hfal : (idsParaBloquear db.registros sel).any
      (fun fid => (farmacoEnSucursal db.farmacos db.sucursalId fid).isNone) = true
  · rw [if_pos hfal]
    exact ⟨_, rfl⟩
  · rw [if_neg hfal]
    cases hfind : (idsParaBloquear db.registros sel).find? (fun fid =>
        decide (deltaDe db.registros sel fid > 0 ∧
          ((farmacoEnSucursal db.farmacos db.sucursalId fid).map FarmacoRec.stock).getD 0
            < deltaDe db.registros sel fid)) with
    | some fid => exact ⟨_, rfl⟩
    | none =>
        exfalso
        rcases hbad with ⟨fid, hfid, hnone⟩ | ⟨fid, hfid, hcond⟩
        · exact hfal (List.any_eq_true.mpr ⟨fid, hfid, hnone⟩)
        · exact absurd (List.find?_eq_none.mp hfind fid hfid) (by simpa using hcond)

lemma transaccionAtender_ok_inv {u : UserRec} {db : Db} {req : PostData}
    {sel : List (Nat × Int)} {db' : Db}
    (h : transaccionAtender u db req sel = .ok db') :
    (req.utilizo_farmacos = true ∧
      reconciliarFarmacos
        { db with historial := some (mkHistorial u db req), estado := "atendida" } sel
        = .ok db') ∨
    (req.utilizo_farmacos = false ∧
      db' = { db with
        historial := some (mkHistorial u db req)
        estado := "atendida"
        farmacos := devolverStock db.sucursalId db.registros db.farmacos
        registros := [] }) := by
  unfold transaccionAtender at h
  by_cases hut : req.utilizo_farmacos = true
  · rw [if_pos hut] at h
    exact Or.inl ⟨hut, h⟩
  · rw [if_neg hut] at h
    exact Or.inr ⟨Bool.eq_false_iff.mpr hut, (Except.ok.inj h).symm⟩

lemma atender_cita_eq_of_ok {u : UserRec} {cid : Nat} {db : Db} {req : PostData}
    {db' : Db}
    (hrol : u.rol = "VET")
    (hgest : usuario_puede_gestionar_sucursal u (some db.sucursalId) = true)
    (hvet : (idTruthy db.veterinarioId && db.veterinarioId != some u.id) = false)
    (hmsg : hayMensajesError req.utilizo_farmacos req.entradas = false)
    (hok : transaccionAtender u db req (seleccionPost req.entradas) = .ok db') :
    atender_cita u cid db req = ⟨db', .detalleCita cid, false⟩ := by
  unfold atender_cita
  rw [if_neg (by simp [hrol]), if_neg (by simp [hgest]), if_neg (by simp [hvet]),
    if_neg (by simp [hmsg]), hok]

/-- A POST of `atender_cita` that raises no error message went through all
permission guards, passed validation and committed its transaction. -/
lemma atender_cita_ok_inv {u : UserRec} {cid : Nat} {db : Db} {req : PostData}
    (h : (atender_cita u cid db req).huboError = false) :
    u.rol = "VET" ∧
    usuario_puede_gestionar_sucursal u (some db.sucursalId) = true ∧
    hayMensajesError req.utilizo_farmacos req.entradas = false ∧
    ∃ db', transaccionAtender u db req (seleccionPost req.entradas) = .ok db' ∧
      atender_cita u cid db req = ⟨db', .detalleCita cid, false⟩ := by
  unfold atender_cita at h
  by_cases h1 : u.rol ≠ "VET"
  · rw [if_pos h1] at h
    simp at h
  rw [if_neg h1] at h
  have hrol : u.rol = "VET" := not_not.mp h1
  by_cases h2 : ¬ usuario_puede_gestionar_sucursal u (some db.sucursalId) = true
  · rw [if_pos h2] at h
    simp at h
  rw [if_neg h2] at h
  have hgest : usuario_puede_gestionar_sucursal u (some db.sucursalId) = true :=
    not_not.mp h2
  by_cases h3 : (idTruthy db.veterinarioId && db.veterinarioId != some u.id) = true
  · rw [if_pos h3] at h
    simp at h
  rw [if_neg h3] at h
  have hvet : (idTruthy db.veterinarioId && db.veterinarioId != some u.id) = false :=
    Bool.eq_false_iff.mpr (fun hc => h3 hc)
  by_cases h4 : hayMensajesError req.utilizo_farmacos req.entradas = true
  · rw [if_pos h4] at h
    simp at h
  rw [if_neg h4] at h
  have hmsg : hayMensajesError req.utilizo_farmacos req.entradas = false :=
    Bool.eq_false_iff.mpr (fun hc => h4 hc)
  cases htr : transaccionAtender u db req (seleccionPost req.entradas) with
  | error msg =>
      rw [htr] at h
      simp at h
  | ok db' =>
      exact ⟨hrol, hgest, hmsg, db', rfl,
        atender_cita_eq_of_ok hrol hgest hvet hmsg htr⟩

lemma seleccionPost_ne_nil_of_ok {req : PostData}
    (hmsg : hayMensajesError req.utilizo_farmacos req.entradas = false)
    (hut : req.utilizo_farmacos = true) :
    seleccionPost req.entradas ≠ [] := by
  intro hnil
  unfold hayMensajesError at hmsg
  rw [hut, hnil] at hmsg
  simp at hmsg

lemma idsParaBloquear_ne_nil {registros : List RegistroFarmaco}
    {sel : List (Nat × Int)} (hsel : sel ≠ []) :
    idsParaBloquear registros sel ≠ [] := by
  obtain ⟨p, ps, rfl⟩ : ∃ p ps, sel = p :: ps := by
    cases sel with
    | nil => exact absurd rfl hsel
    | cons p ps => exact ⟨p, ps, rfl⟩
  intro hnil
  have : p.1 ∈ idsParaBloquear registros (p :: ps) :=
    mem_idsParaBloquear.mpr (Or.inr (List.mem_map.mpr ⟨p, List.mem_cons_self _ _, rfl⟩))
  rw [hnil] at this
  simp at this

lemma reconciliarFarmacos_estado {db : Db} {sel : List (Nat × Int)} {db' : Db}
    (h : reconciliarFarmacos db sel = .ok db') :
    db'.estado = db.estado ∧ db'.historial = db.historial := by
  unfold reconciliarFarmacos at h
  split at h
  · rw [← Except.ok.inj h]
    exact ⟨rfl, rfl⟩
  · split at h
    · exact Except.noConfusion h
    · split at h
      · exact Except.noConfusion h
      · rw [← Except.ok.inj h]
        exact ⟨rfl, rfl⟩

lemma atender_cita_cases (u : UserRec) (cid : Nat) (db : Db) (req : PostData) :
    (atender_cita u cid db req).db = db ∨
      (atender_cita u cid db req).huboError = false := by
  unfold atender_cita
  split
  · exact Or.inl rfl
  split
  · exact Or.inl rfl
  split
  · exact Or.inl rfl
  split
  · exact Or.inl rfl
  split
  · exact Or.inl rfl
  · exact Or.inr rfl

lemma atender_cita_error_db {u : UserRec} {cid : Nat} {db : Db} {req : PostData}
    (h : (atender_cita u cid db req).huboError = true) :
    (atender_cita u cid db req).db = db := by
  rcases atender_cita_cases u cid db req with hdb | hok
  · exact hdb
  · rw [hok] at h
    exact Bool.noConfusion h

lemma farmacoEnSucursal_self {suc : Nat} :
    ∀ {fs : List FarmacoRec}, (fs.map FarmacoRec.id).Nodup →
    ∀ {f : FarmacoRec}, f ∈ fs → f.sucursalId = suc →
    farmacoEnSucursal fs suc f.id = some f := by
  intro fs
  induction fs with
  | nil => intro _ f hf; exact absurd hf (List.not_mem_nil f)
  | cons a fs ih =>
      intro hnd f hf hsuc
      rw [List.map_cons, List.nodup_cons] at hnd
      obtain ⟨ha, hnd'⟩ := hnd
      rcases List.mem_cons.mp hf with rfl | hf'
      · exact List.find?_cons_of_pos _ (by simp [hsuc])
      · have haid : ¬ a.id = f.id := by
          intro hid
          exact ha (List.mem_map.mpr ⟨f, hf', hid.symm⟩)
        unfold farmacoEnSucursal at *
        rw [List.find?_cons_of_neg _ (by simp [haid])]
        exact ih hnd' hf' hsuc

lemma devolucionPorRegistro_id (suc : Nat) (registros : List RegistroFarmaco)
    (f : FarmacoRec) : (devolucionPorRegistro suc registros f).id = f.id := by
  unfold devolucionPorRegistro
  cases regLookup registros f.id with
  | some r => by_cases h : f.sucursalId = suc <;> simp [h]
  | none => rfl

lemma devolucionPorRegistro_sucursal (suc : Nat) (registros : List RegistroFarmaco)
    (f : FarmacoRec) :
    (devolucionPorRegistro suc registros f).sucursalId = f.sucursalId := by
  unfold devolucionPorRegistro
  cases regLookup registros f.id with
  | some r => by_cases h : f.sucursalId = suc <;> simp [h]
  | none => rfl

/-- Shared characterisation of a successful medication-enabled completion:
per locked drug id, the inventory row loses exactly the delta and the
appointment's recorded quantity becomes the newly selected one. -/
lemma atender_exito_farmacos {u : UserRec} {cid : Nat} {db : Db} {req : PostData}
    (hnodupR : (db.registros.map RegistroFarmaco.farmacoId).Nodup)
    (hok : (atender_cita u cid db req).huboError = false)
    (hut : req.utilizo_farmacos = true) :
    ∀ fid ∈ idsParaBloquear db.registros (seleccionPost req.entradas),
      farmacoEnSucursal (atender_cita u cid db req).db.farmacos db.sucursalId fid
        = (farmacoEnSucursal db.farmacos db.sucursalId fid).map
            (fun f => { f with stock :=
              f.stock - deltaDe db.registros (seleccionPost req.entradas) fid })
      ∧ (regLookup (atender_cita u cid db req).db.registros fid).map
          RegistroFarmaco.cantidad
        = nuevosMap (seleccionPost req.entradas) fid
      ∧ (farmacoEnSucursal db.farmacos db.sucursalId fid).isSome := by
  obtain ⟨hrol, hgest, hmsg, db', htr, heq⟩ := atender_cita_ok_inv hok
  have hsel : seleccionPost req.entradas ≠ [] := seleccionPost_ne_nil_of_ok hmsg hut
  have hids : idsParaBloquear db.registros (seleccionPost req.entradas) ≠ [] :=
    idsParaBloquear_ne_nil hsel
  rcases transaccionAtender_ok_inv htr with ⟨_, hrec⟩ | ⟨hf, _⟩
  · obtain ⟨hpres, hstockok, hdb'⟩ := reconciliarFarmacos_ok_spec
      { db with historial := some (mkHistorial u db req), estado := "atendida" }
      (seleccionPost req.entradas) db' hids hrec
    have hfar : db'.farmacos
        = aplicarDeltas db.sucursalId db.registros (seleccionPost req.entradas)
            (idsParaBloquear db.registros (seleccionPost req.entradas)) db.farmacos := by
      rw [hdb']
    have hregs : db'.registros
        = registrosFinales db.registros (seleccionPost req.entradas) := by
      rw [hdb']
    have hdbeq : (atender_cita u cid db req).db = db' := by rw [heq]
    intro fid hfid
    refine ⟨?_, ?_, hpres fid hfid⟩
    · rw [hdbeq, hfar,
        aplicarDeltas_eq_map db.sucursalId db.registros (seleccionPost req.entradas)
          (idsParaBloquear db.registros (seleccionPost req.entradas))
          (nodup_idsParaBloquear _ _) db.farmacos]
      rw [farmacoEnSucursal_map
        (fun f => by by_cases hc : f.sucursalId = db.sucursalId ∧
            f.id ∈ idsParaBloquear db.registros (seleccionPost req.entradas) <;>
          simp [hc])
        (fun f => by by_cases hc : f.sucursalId = db.sucursalId ∧
            f.id ∈ idsParaBloquear db.registros (seleccionPost req.entradas) <;>
          simp [hc])]
      cases ho : farmacoEnSucursal db.farmacos db.sucursalId fid with
      | none => rfl
      | some f0 =>
          have hpred := List.find?_some ho
          simp only [decide_eq_true_eq] at hpred
          obtain ⟨hid0, hsuc0⟩ := hpred
          rw [Option.map_some', Option.map_some']
          rw [if_pos ⟨hsuc0, by rw [hid0]; exact hfid⟩, hid0]
    · rw [hdbeq, hregs,
        regLookup_registrosFinales db.registros (seleccionPost req.entradas) fid hnodupR]
  · rw [hf] at hut
    exact Bool.noConfusion hut

/-! ## Claim theorems (part 1) -/

/-- C3: `_filtrar_por_sucursal` returns the queryset unchanged for
superusers; unchanged for users whose role is not ADMIN/ADMIN_OP/VET;
the empty queryset for branch-scoped users with no assigned branch; and
otherwise exactly the rows whose branch-field id equals the user's branch. -/
theorem claim_C3_filtrar_por_sucursal {α : Type} (qs : List α) (u : UserRec)
    (proj : α → Option Nat) (sid : Nat) :
    (u.is_superuser = true → filtrar_por_sucursal qs u proj = qs) ∧
    (u.is_superuser = false → u.rol ∉ rolesConSucursal →
      filtrar_por_sucursal qs u proj = qs) ∧
    (u.is_superuser = false → u.rol ∈ rolesConSucursal → u.sucursalId = none →
      filtrar_por_sucursal qs u proj = []) ∧
    (u.is_superuser = false → u.rol ∈ rolesConSucursal → u.sucursalId = some sid →
      sid ≠ 0 →
      filtrar_por_sucursal qs u proj = qs.filter (fun r => proj r = some sid)) := by
  refine ⟨?_, ?_, ?_, ?_⟩
  · intro h; simp [filtrar_por_sucursal, h]
  · intro h hrol; simp [filtrar_por_sucursal, h, hrol]
  · intro h hrol hsuc; simp [filtrar_por_sucursal, h, hrol, hsuc, idTruthy]
  · intro h hrol hsuc hsid
    simp [filtrar_por_sucursal, h, hrol, hsuc, idTruthy, hsid]

/-- C3 witness: concrete evaluations of all four branches. -/
theorem claim_C3_filtrar_por_sucursal_witness :
    filtrar_por_sucursal [some 1, some 2, none] ⟨7, true, "OWNER", none, ""⟩ id
        = [some 1, some 2, none] ∧
    filtrar_por_sucursal [some 1, some 2, none] ⟨7, false, "OWNER", some 9, ""⟩ id
        = [some 1, some 2, none] ∧
    filtrar_por_sucursal [some 1, some 2, none] ⟨7, false, "VET", none, ""⟩ id
        = [] ∧
    filtrar_por_sucursal [some 1, some 2, none] ⟨7, false, "VET", some 2, ""⟩ id
        = [some 2] :=
  ⟨(claim_C3_filtrar_por_sucursal [some 1, some 2, none]
      ⟨7, true, "OWNER", none, ""⟩ id 0).1 rfl,
   (claim_C3_filtrar_por_sucursal [some 1, some 2, none]
      ⟨7, false, "OWNER", some 9, ""⟩ id 0).2.1 rfl (by decide),
   (claim_C3_filtrar_por_sucursal [some 1, some 2, none]
      ⟨7, false, "VET", none, ""⟩ id 0).2.2.1 rfl (by decide) rfl,
   by
     have h := (claim_C3_filtrar_por_sucursal [some 1, some 2, none]
       ⟨7, false, "VET", some 2, ""⟩ id 2).2.2.2 rfl (by decide) rfl (by decide)
     rw [h]; rfl⟩

/-- C5: on every successful visit-completion POST, the appointment's estado
becomes `atendida`, exactly one medical record linked one-to-one to the
appointment exists (created or updated in place, modelled by the `Option`
field holding exactly the written record), and the response redirects to
the appointment detail page. -/
theorem claim_C5_exito (u : UserRec) (cid : Nat) (db : Db) (req : PostData)
    (hok : (atender_cita u cid db req).huboError = false) :
    (atender_cita u cid db req).db.estado = "atendida" ∧
    (atender_cita u cid db req).db.historial = some (mkHistorial u db req) ∧
    (atender_cita u cid db req).destino = .detalleCita cid := by
  obtain ⟨hrol, hgest, hmsg, db', htr, heq⟩ := atender_cita_ok_inv hok
  have hdbeq : (atender_cita u cid db req).db = db' := by rw [heq]
  have hdest : (atender_cita u cid db req).destino = .detalleCita cid := by rw [heq]
  rcases transaccionAtender_ok_inv htr with ⟨_, hrec⟩ | ⟨_, hdb'⟩
  · obtain ⟨hest, hhist⟩ := reconciliarFarmacos_estado hrec
    exact ⟨by rw [hdbeq, hest], by rw [hdbeq, hhist], hdest⟩
  · exact ⟨by rw [hdbeq, hdb'], by rw [hdbeq, hdb'], hdest⟩

/-- C5 witness: a concrete successful completion without medication. -/
theorem claim_C5_exito_witness :
    (atender_cita ⟨7, false, "VET", some 1, ""⟩ 3
        ⟨1, 1, some 7, "programada", none, [], []⟩
        ⟨some "d", some "t", none, none, none, none, none, false, false, false,
          [], none⟩).db.estado = "atendida" ∧
    (atender_cita ⟨7, false, "VET", some 1, ""⟩ 3
        ⟨1, 1, some 7, "programada", none, [], []⟩
        ⟨some "d", some "t", none, none, none, none, none, false, false, false,
          [], none⟩).db.historial
      = some (mkHistorial ⟨7, false, "VET", some 1, ""⟩
          ⟨1, 1, some 7, "programada", none, [], []⟩
          ⟨some "d", some "t", none, none, none, none, none, false, false, false,
            [], none⟩) ∧
    (atender_cita ⟨7, false, "VET", some 1, ""⟩ 3
        ⟨1, 1, some 7, "programada", none, [], []⟩
        ⟨some "d", some "t", none, none, none, none, none, false, false, false,
          [], none⟩).destino = .detalleCita 3 :=
  claim_C5_exito ⟨7, false, "VET", some 1, ""⟩ 3
    ⟨1, 1, some 7, "programada", none, [], []⟩
    ⟨some "d", some "t", none, none, none, none, none, false, false, false,
      [], none⟩ (by decide)

/-- C2: if the request reaches the transaction with medication enabled and
some locked drug is missing from the branch inventory or has a positive
delta exceeding its stock, `atender_cita` reports an error and the whole
database state is exactly the pre-request one (rollback). -/
theorem claim_C2_rollback (u : UserRec) (cid : Nat) (db : Db) (req : PostData)
    (hrol : u.rol = "VET")
    (hgest : usuario_puede_gestionar_sucursal u (some db.sucursalId) = true)
    (hvet : (idTruthy db.veterinarioId && db.veterinarioId != some u.id) = false)
    (hmsg : hayMensajesError req.utilizo_farmacos req.entradas = false)
    (hut : req.utilizo_farmacos = true)
    (hbad : (∃ fid ∈ idsParaBloquear db.registros (seleccionPost req.entradas),
        (farmacoEnSucursal db.farmacos db.sucursalId fid).isNone) ∨
      (∃ fid ∈ idsParaBloquear db.registros (seleccionPost req.entradas),
        deltaDe db.registros (seleccionPost req.entradas) fid > 0 ∧
          ((farmacoEnSucursal db.farmacos db.sucursalId fid).map
            FarmacoRec.stock).getD 0
            < deltaDe db.registros (seleccionPost req.entradas) fid)) :
    atender_cita u cid db req = ⟨db, .renderForm, true⟩ := by
  obtain ⟨msg, herr⟩ := reconciliarFarmacos_error_of_bad
    { db with historial := some (mkHistorial u db req), estado := "atendida" }
    (seleccionPost req.entradas) hbad
  have htr : transaccionAtender u db req (seleccionPost req.entradas)
      = .error msg := by
    unfold transaccionAtender
    rw [if_pos hut]
    exact herr
  unfold atender_cita
  rw [if_neg (by simp [hrol]), if_neg (by simp [hgest]), if_neg (by simp [hvet]),
    if_neg (by simp [hmsg]), htr]

/-- C2 witness: requesting five units of a drug with stock one leaves the
database untouched and re-renders with an error. -/
theorem claim_C2_rollback_witness :
    atender_cita ⟨7, false, "VET", some 1, ""⟩ 0
        ⟨1, 1, some 7, "programada", none, [],
          [⟨1, 1, "Paracetamol", 1⟩]⟩
        ⟨some "d", some "t", none, none, none, none, none, false, false, true,
          [some (1, 5)], none⟩
      = ⟨⟨1, 1, some 7, "programada", none, [], [⟨1, 1, "Paracetamol", 1⟩]⟩,
          .renderForm, true⟩ :=
  claim_C2_rollback ⟨7, false, "VET", some 1, ""⟩ 0
    ⟨1, 1, some 7, "programada", none, [], [⟨1, 1, "Paracetamol", 1⟩]⟩
    ⟨some "d", some "t", none, none, none, none, none, false, false, true,
      [some (1, 5)], none⟩
    rfl rfl rfl rfl rfl (by decide)

/-- C6 counterexample: an appointment of branch 1 holds a `CitaFarmaco` row
of 2 units for a drug that now belongs to branch 2 (an admin may move a
drug between branches through the inventory form). A medication-disabled
completion deletes the row but, because the stock update filters on
`sucursal=cita.sucursal`, the drug's stock stays 5 instead of rising to 7
as the claim requires. -/
theorem claim_C6_counterexample :
    (atender_cita ⟨7, false, "VET", some 1, ""⟩ 0
        ⟨1, 1, some 7, "atendida", none, [⟨1, 2⟩],
          [⟨1, 2, "Amoxicilina", 5⟩]⟩
        ⟨some "d", some "t", none, none, none, none, none, false, false, false,
          [], none⟩).huboError = false ∧
    (atender_cita ⟨7, false, "VET", some 1, ""⟩ 0
        ⟨1, 1, some 7, "atendida", none, [⟨1, 2⟩],
          [⟨1, 2, "Amoxicilina", 5⟩]⟩
        ⟨some "d", some "t", none, none, none, none, none, false, false, false,
          [], none⟩).db.registros = [] ∧
    (atender_cita ⟨7, false, "VET", some 1, ""⟩ 0
        ⟨1, 1, some 7, "atendida", none, [⟨1, 2⟩],
          [⟨1, 2, "Amoxicilina", 5⟩]⟩
        ⟨some "d", some "t", none, none, none, none, none, false, false, false,
          [], none⟩).db.farmacos.map FarmacoRec.stock = [5] ∧
    ¬ (atender_cita ⟨7, false, "VET", some 1, ""⟩ 0
        ⟨1, 1, some 7, "atendida", none, [⟨1, 2⟩],
          [⟨1, 2, "Amoxicilina", 5⟩]⟩
        ⟨some "d", some "t", none, none, none, none, none, false, false, false,
          [], none⟩).db.farmacos.map FarmacoRec.stock = [5 + 2] := by
  refine ⟨rfl, rfl, rfl, ?_⟩
  decide

/-- C6 (amended): on a medication-disabled POST that completes, every
previously recorded `CitaFarmaco` row is deleted, and the whole inventory
table is characterised pointwise: a drug of the appointment's branch gains
exactly the previously recorded quantity (zero when the appointment
recorded none), while every drug outside the appointment's branch —
including one that was moved away after being dispensed — is left exactly
unchanged, so its row is deleted without any stock adjustment. -/
theorem claim_C6_amended_devolucion (u : UserRec) (cid : Nat) (db : Db)
    (req : PostData)
    (hnodupR : (db.registros.map RegistroFarmaco.farmacoId).Nodup)
    (hok : (atender_cita u cid db req).huboError = false)
    (hut : req.utilizo_farmacos = false) :
    (atender_cita u cid db req).db.registros = [] ∧
    (atender_cita u cid db req).db.farmacos
      = db.farmacos.map (fun f =>
          if f.sucursalId = db.sucursalId then
            { f with stock := f.stock + anteriorCantidad db.registros f.id }
          else f) := by
  obtain ⟨hrol, hgest, hmsg, db', htr, heq⟩ := atender_cita_ok_inv hok
  have hdbeq : (atender_cita u cid db req).db = db' := by rw [heq]
  rcases transaccionAtender_ok_inv htr with ⟨hu, _⟩ | ⟨_, hdb'⟩
  · rw [hu] at hut
    exact Bool.noConfusion hut
  · have hregs : db'.registros = [] := by rw [hdb']
    have hfar : db'.farmacos = devolverStock db.sucursalId db.registros db.farmacos := by
      rw [hdb']
    refine ⟨by rw [hdbeq, hregs], ?_⟩
    rw [hdbeq, hfar, devolverStock_eq_map db.sucursalId db.registros hnodupR db.farmacos]
    apply List.map_congr_left
    intro f _
    unfold devolucionPorRegistro anteriorCantidad
    cases hr : regLookup db.registros f.id with
    | some r =>
        by_cases hs : f.sucursalId = db.sucursalId
        · simp [hs]
        · simp [hs]
    | none =>
        by_cases hs : f.sucursalId = db.sucursalId
        · rw [if_pos hs,
            show (Option.map RegistroFarmaco.cantidad
              (none : Option RegistroFarmaco)).getD 0 = 0 from rfl, add_zero]
        · rw [if_neg hs]

/-- C6 (amended) witness: one in-branch drug with 2 previously dispensed
units and one drug moved to branch 2 with 3 previously dispensed units;
after the medication-disabled completion both rows are gone, the in-branch
stock rises by 2, and the moved drug's row is exactly unchanged. -/
theorem claim_C6_amended_devolucion_witness :
    (atender_cita ⟨7, false, "VET", some 1, ""⟩ 0
        ⟨1, 1, some 7, "atendida", none, [⟨1, 2⟩, ⟨2, 3⟩],
          [⟨1, 1, "Amoxicilina", 5⟩, ⟨2, 2, "Cefalexina", 4⟩]⟩
        ⟨some "d", some "t", none, none, none, none, none, false, false, false,
          [], none⟩).db.registros = [] ∧
    (atender_cita ⟨7, false, "VET", some 1, ""⟩ 0
        ⟨1, 1, some 7, "atendida", none, [⟨1, 2⟩, ⟨2, 3⟩],
          [⟨1, 1, "Amoxicilina", 5⟩, ⟨2, 2, "Cefalexina", 4⟩]⟩
        ⟨some "d", some "t", none, none, none, none, none, false, false, false,
          [], none⟩).db.farmacos
      = [⟨1, 1, "Amoxicilina", 5⟩, ⟨2, 2, "Cefalexina", 4⟩].map (fun f =>
          if f.sucursalId = 1 then
            { f with stock := f.stock + anteriorCantidad [⟨1, 2⟩, ⟨2, 3⟩] f.id }
          else f) :=
  claim_C6_amended_devolucion ⟨7, false, "VET", some 1, ""⟩ 0
    ⟨1, 1, some 7, "atendida", none, [⟨1, 2⟩, ⟨2, 3⟩],
      [⟨1, 1, "Amoxicilina", 5⟩, ⟨2, 2, "Cefalexina", 4⟩]⟩
    ⟨some "d", some "t", none, none, none, none, none, false, false, false,
      [], none⟩
    (by decide) (by decide) rfl

/-- C8: starting from non-negative stocks (and the non-negative recorded
quantities the model guarantees), every drug's stock is still non-negative
after any `atender_cita` POST: the only decrement is guarded by the
stock-sufficiency check inside the transaction. -/
theorem claim_C8_stock_no_negativo (u : UserRec) (cid : Nat) (db : Db)
    (req : PostData)
    (hnodupF : (db.farmacos.map FarmacoRec.id).Nodup)
    (hnodupR : (db.registros.map RegistroFarmaco.farmacoId).Nodup)
    (hstocks : ∀ f ∈ db.farmacos, 0 ≤ f.stock)
    (hcant : ∀ r ∈ db.registros, 0 ≤ r.cantidad) :
    ∀ f ∈ (atender_cita u cid db req).db.farmacos, 0 ≤ f.stock := by
  cases hres : (atender_cita u cid db req).huboError with
  | true =>
      rw [atender_cita_error_db hres]
      exact hstocks
  | false =>
      obtain ⟨hrol, hgest, hmsg, db', htr, heq⟩ := atender_cita_ok_inv hres
      have hdbeq : (atender_cita u cid db req).db = db' := by rw [heq]
      rw [hdbeq]
      rcases transaccionAtender_ok_inv htr with ⟨hu, hrec⟩ | ⟨_, hdb'⟩
      · have hsel : seleccionPost req.entradas ≠ [] :=
          seleccionPost_ne_nil_of_ok hmsg hu
        have hids : idsParaBloquear db.registros (seleccionPost req.entradas) ≠ [] :=
          idsParaBloquear_ne_nil hsel
        obtain ⟨hpres, hstockok, hdb'⟩ := reconciliarFarmacos_ok_spec
          { db with historial := some (mkHistorial u db req), estado := "atendida" }
          (seleccionPost req.entradas) db' hids hrec
        have hfar : db'.farmacos
            = aplicarDeltas db.sucursalId db.registros (seleccionPost req.entradas)
              (idsParaBloquear db.registros (seleccionPost req.entradas))
              db.farmacos := by
          rw [hdb']
        rw [hfar, aplicarDeltas_eq_map db.sucursalId db.registros
          (seleccionPost req.entradas)
          (idsParaBloquear db.registros (seleccionPost req.entradas))
          (nodup_idsParaBloquear _ _) db.farmacos]
        intro f hf
        obtain ⟨f0, hf0, rfl⟩ := List.mem_map.mp hf
        by_cases hc : f0.sucursalId = db.sucursalId ∧
            f0.id ∈ idsParaBloquear db.registros (seleccionPost req.entradas)
        · rw [if_pos hc]
          have hself : farmacoEnSucursal db.farmacos db.sucursalId f0.id = some f0 :=
            farmacoEnSucursal_self hnodupF hf0 hc.1
          have hok2 := hstockok f0.id hc.2
          rw [hself] at hok2
          simp only [Option.map_some', Option.getD_some] at hok2
          have h0 := hstocks f0 hf0
          show 0 ≤ f0.stock - deltaDe db.registros (seleccionPost req.entradas) f0.id
          rcases not_and_or.mp hok2 with h | h <;> omega
        · rw [if_neg hc]
          exact hstocks f0 hf0
      · have hfar : db'.farmacos
            = devolverStock db.sucursalId db.registros db.farmacos := by
          rw [hdb']
        rw [hfar, devolverStock_eq_map db.sucursalId db.registros hnodupR db.farmacos]
        intro f hf
        obtain ⟨f0, hf0, rfl⟩ := List.mem_map.mp hf
        unfold devolucionPorRegistro
        cases hr : regLookup db.registros f0.id with
        | some r =>
            have hmem : r ∈ db.registros := List.mem_of_find?_eq_some hr
            have h0 := hstocks f0 hf0
            have h1 := hcant r hmem
            by_cases hs : f0.sucursalId = db.sucursalId
            · simp only [hs, if_true]
              show 0 ≤ f0.stock + r.cantidad
              omega
            · simp only [hs, if_false]
              exact h0
        | none => exact hstocks f0 hf0

/-- C8 witness: the concrete completion of the C1 fixture keeps all stocks
non-negative; evaluated at the first inventory row of the result. -/
theorem claim_C8_stock_no_negativo_witness :
    (0 : Int) ≤ (FarmacoRec.mk 1 1 "Amoxicilina" 4).stock :=
  claim_C8_stock_no_negativo ⟨7, false, "VET", some 1, ""⟩ 0
    ⟨1, 1, some 7, "programada", none, [⟨1, 2⟩],
      [⟨1, 1, "Amoxicilina", 5⟩, ⟨2, 1, "Ibuprofeno", 3⟩]⟩
    ⟨some "d", some "t", none, none, none, none, none, false, false, true,
      [some (1, 3), some (2, 1)], none⟩
    (by decide) (by decide) (by decide) (by decide)
    ⟨1, 1, "Amoxicilina", 4⟩ (by decide)

/-- C10: `Cita.telefono_contacto` yields a digits-only string, empty when
both the owner's and the owner user's phones are blank, and
`Producto.telefono_whatsapp` yields a digits-only string. -/
theorem claim_C10_telefonos (p u t : String) :
    (∀ c ∈ (telefono_contacto p u).data, c.isDigit = true) ∧
    (pyStrip p = "" → pyStrip u = "" → telefono_contacto p u = "") ∧
    (∀ c ∈ (telefono_whatsapp t).data, c.isDigit = true) := by
  refine ⟨?_, ?_, ?_⟩
  · intro c hc
    unfold telefono_contacto at hc
    by_cases h : pyStrip (pyOrStr p (pyOrStr u "")) = ""
    · simp only [h, if_pos rfl] at hc
      simp at hc
    · simp only [if_neg h] at hc
      rw [data_soloDigitos] at hc
      exact (List.mem_filter.mp hc).2
  · intro hp hu
    unfold telefono_contacto pyOrStr
    by_cases h1 : p = ""
    · by_cases h2 : u = ""
      · simp only [h1, h2]; decide
      · simp only [h1, ne_eq, not_true_eq_false, if_false, h2, not_false_eq_true,
          if_true, hu, if_pos rfl]
    · simp only [ne_eq, h1, not_false_eq_true, if_true, hp, if_pos rfl]
  · intro c hc
    unfold telefono_whatsapp at hc
    rw [data_soloDigitos] at hc
    exact (List.mem_filter.mp hc).2

/-- C10 witness: concrete evaluations. -/
theorem claim_C10_telefonos_witness :
    (('5' : Char).isDigit = true) ∧ telefono_contacto " " "\t" = "" ∧
    (('9' : Char).isDigit = true) :=
  ⟨(claim_C10_telefonos "+5 4" "" "").1 '5' (by decide),
   (claim_C10_telefonos " " "\t" "").2.1 (by decide) (by decide),
   (claim_C10_telefonos "" "" "+9 9").2.2 '9' (by decide)⟩

/-- C1: on a completing POST with medication use enabled and a valid
non-empty selection, for every drug id in the union of previously recorded
and newly selected ids (all in the branch inventory), the stock changes by
minus the delta (new minus previous quantity), the per-visit `CitaFarmaco`
row is created or updated to the new quantity, and rows of drugs no longer
selected are deleted (their looked-up quantity becomes `none`). -/
theorem claim_C1_reconciliacion_stock (u : UserRec) (cid : Nat) (db : Db)
    (req : PostData)
    (hnodupR : (db.registros.map RegistroFarmaco.farmacoId).Nodup)
    (hok : (atender_cita u cid db req).huboError = false)
    (hut : req.utilizo_farmacos = true)
    (_hinv : ∀ fid ∈ idsParaBloquear db.registros (seleccionPost req.entradas),
      (farmacoEnSucursal db.farmacos db.sucursalId fid).isSome) :
    ∀ fid ∈ idsParaBloquear db.registros (seleccionPost req.entradas),
      farmacoEnSucursal (atender_cita u cid db req).db.farmacos db.sucursalId fid
        = (farmacoEnSucursal db.farmacos db.sucursalId fid).map
            (fun f => { f with stock :=
              f.stock - deltaDe db.registros (seleccionPost req.entradas) fid })
      ∧ (regLookup (atender_cita u cid db req).db.registros fid).map
          RegistroFarmaco.cantidad
        = nuevosMap (seleccionPost req.entradas) fid := by
  intro fid hfid
  obtain ⟨h1, h2, _⟩ := atender_exito_farmacos hnodupR hok hut fid hfid
  exact ⟨h1, h2⟩

/-- C1 witness: a vet completes a visit raising one drug from 2 to 3 units
and newly dispensing another; both equations evaluated at the second drug. -/
theorem claim_C1_reconciliacion_stock_witness :
    farmacoEnSucursal
        (atender_cita ⟨7, false, "VET", some 1, ""⟩ 0
          ⟨1, 1, some 7, "programada", none, [⟨1, 2⟩],
            [⟨1, 1, "Amoxicilina", 5⟩, ⟨2, 1, "Ibuprofeno", 3⟩]⟩
          ⟨some "d", some "t", none, none, none, none, none, false, false, true,
            [some (1, 3), some (2, 1)], none⟩).db.farmacos 1 2
      = (farmacoEnSucursal
          [⟨1, 1, "Amoxicilina", 5⟩, ⟨2, 1, "Ibuprofeno", 3⟩] 1 2).map
          (fun f => { f with stock := f.stock - deltaDe [⟨1, 2⟩] (seleccionPost [some (1, 3), some (2, 1)]) 2 })
    ∧ (regLookup
        (atender_cita ⟨7, false, "VET", some 1, ""⟩ 0
          ⟨1, 1, some 7, "programada", none, [⟨1, 2⟩],
            [⟨1, 1, "Amoxicilina", 5⟩, ⟨2, 1, "Ibuprofeno", 3⟩]⟩
          ⟨some "d", some "t", none, none, none, none, none, false, false, true,
            [some (1, 3), some (2, 1)], none⟩).db.registros 2).map
        RegistroFarmaco.cantidad
      = nuevosMap (seleccionPost [some (1, 3), some (2, 1)]) 2 :=
  claim_C1_reconciliacion_stock ⟨7, false, "VET", some 1, ""⟩ 0
    ⟨1, 1, some 7, "programada", none, [⟨1, 2⟩],
      [⟨1, 1, "Amoxicilina", 5⟩, ⟨2, 1, "Ibuprofeno", 3⟩]⟩
    ⟨some "d", some "t", none, none, none, none, none, false, false, true,
      [some (1, 3), some (2, 1)], none⟩
    (by decide) (by decide) rfl (by decide) 2 (by decide)

/-- C9: for every drug touched by a successful medication reconciliation,
inventory stock plus the appointment's recorded quantity is conserved. -/
theorem claim_C9_conservacion (u : UserRec) (cid : Nat) (db : Db) (req : PostData)
    (hnodupR : (db.registros.map RegistroFarmaco.farmacoId).Nodup)
    (hok : (atender_cita u cid db req).huboError = false)
    (hut : req.utilizo_farmacos = true) :
    ∀ fid ∈ idsParaBloquear db.registros (seleccionPost req.entradas),
      ((farmacoEnSucursal (atender_cita u cid db req).db.farmacos
          db.sucursalId fid).map FarmacoRec.stock).getD 0
        + anteriorCantidad (atender_cita u cid db req).db.registros fid
      = ((farmacoEnSucursal db.farmacos db.sucursalId fid).map
          FarmacoRec.stock).getD 0
        + anteriorCantidad db.registros fid := by
  intro fid hfid
  obtain ⟨h1, h2, hpres⟩ := atender_exito_farmacos hnodupR hok hut fid hfid
  cases ho : farmacoEnSucursal db.farmacos db.sucursalId fid with
  | none =>
      rw [ho] at hpres
      exact absurd hpres (by simp)
  | some f0 =>
      rw [ho] at h1
      rw [h1]
      unfold anteriorCantidad
      rw [h2]
      unfold deltaDe nuevaCantidad anteriorCantidad
      simp only [Option.map_some', Option.getD_some]
      omega

/-- C9 witness: conservation evaluated on the same concrete completion at
drug 1 (2 units previously recorded, 3 newly selected). -/
theorem claim_C9_conservacion_witness :
    ((farmacoEnSucursal
        (atender_cita ⟨7, false, "VET", some 1, ""⟩ 0
          ⟨1, 1, some 7, "programada", none, [⟨1, 2⟩],
            [⟨1, 1, "Amoxicilina", 5⟩, ⟨2, 1, "Ibuprofeno", 3⟩]⟩
          ⟨some "d", some "t", none, none, none, none, none, false, false, true,
            [some (1, 3), some (2, 1)], none⟩).db.farmacos 1 1).map
        FarmacoRec.stock).getD 0
      + anteriorCantidad
          (atender_cita ⟨7, false, "VET", some 1, ""⟩ 0
            ⟨1, 1, some 7, "programada", none, [⟨1, 2⟩],
              [⟨1, 1, "Amoxicilina", 5⟩, ⟨2, 1, "Ibuprofeno", 3⟩]⟩
            ⟨some "d", some "t", none, none, none, none, none, false, false, true,
              [some (1, 3), some (2, 1)], none⟩).db.registros 1
    = ((farmacoEnSucursal
        [⟨1, 1, "Amoxicilina", 5⟩, ⟨2, 1, "Ibuprofeno", 3⟩] 1 1).map
        FarmacoRec.stock).getD 0
      + anteriorCantidad [⟨1, 2⟩] 1 :=
  claim_C9_conservacion ⟨7, false, "VET", some 1, ""⟩ 0
    ⟨1, 1, some 7, "programada", none, [⟨1, 2⟩],
      [⟨1, 1, "Amoxicilina", 5⟩, ⟨2, 1, "Ibuprofeno", 3⟩]⟩
    ⟨some "d", some "t", none, none, none, none, none, false, false, true,
      [some (1, 3), some (2, 1)], none⟩
    (by decide) (by decide) rfl 1 (by decide)

/-- C4: `_excel_sections_response` serves content type
`application/vnd.ms-excel` with an attachment filename, and its body is an
HTML document whose content is exactly the concatenation of the per-section
h2/p headings and table markup; headers (and, by `seccionHtml`/`rowHtml`,
titles, descriptions and cell values) pass through HTML escaping, which
yields no markup characters; a section without rows renders the single
`Sin registros disponibles` row spanning the header count. -/
theorem claim_C4_excel_sections_response (filename : String) (sections : List Seccion) :
    (excel_sections_response filename sections).contentType
        = "application/vnd.ms-excel" ∧
    (excel_sections_response filename sections).contentDisposition
        = "attachment; filename=" ++ filename ∧
    (excel_sections_response filename sections).body
        = "<html><head><meta charset='utf-8'></head>"
            ++ "<body style='font-family:Arial,Helvetica,sans-serif;font-size:13px;'>"
            ++ String.join (sections.map seccionHtml)
            ++ "</body></html>" ∧
    (∀ t : String, ∀ c ∈ (escape t).data, c ≠ '<' ∧ c ≠ '>') ∧
    (∀ s ∈ sections, s.headers ≠ [] →
      ∃ pre post, seccionHtml s
        = pre
            ++ String.join (s.headers.map (fun header =>
                "<th style='background-color:#0f172a;color:#ffffff;text-align:left;'>"
                  ++ escape header ++ "</th>"))
            ++ post) ∧
    (∀ s ∈ sections, s.rows = [] → s.headers ≠ [] →
      ∃ pre post, seccionHtml s
        = pre ++ sinRegistrosRow s.headers.length ++ post) := by
  refine ⟨rfl, rfl, rfl, ?_, ?_, ?_⟩
  · intro t c hc
    exact mem_escapeList hc
  · intro s _ hheaders
    refine ⟨(if s.title ≠ "" then
        "<h2 style='color:#0f172a;margin-bottom:0.35rem;'>" ++ escape s.title ++ "</h2>"
      else "")
      ++ (if s.description ≠ "" then
        "<p style='margin-top:0;margin-bottom:0.8rem;color:#334155;'>"
          ++ escape s.description ++ "</p>"
      else "")
      ++ "<table border='1' cellspacing='0' cellpadding='6' style='border-collapse:collapse;margin-bottom:1.5rem;width:100%;'>"
      ++ "<thead><tr>", ?_, ?_⟩
    · exact "</tr></thead>"
        ++ "<tbody>"
        ++ (if s.rows ≠ [] then String.join (s.rows.map rowHtml)
          else sinRegistrosRow (max s.headers.length 1))
        ++ "</tbody></table>"
    · unfold seccionHtml sinRegistrosRow
      rw [if_pos hheaders]
      simp only [String.append_assoc]
  · intro s _ hrows hheaders
    have hmax : max s.headers.length 1 = s.headers.length :=
      Nat.max_eq_left (Nat.one_le_iff_ne_zero.mpr
        (fun h => hheaders (List.eq_nil_of_length_eq_zero h)))
    have hrows' : ¬ s.rows ≠ [] := fun h => h hrows
    refine ⟨(if s.title ≠ "" then
        "<h2 style='color:#0f172a;margin-bottom:0.35rem;'>" ++ escape s.title ++ "</h2>"
      else "")
      ++ (if s.description ≠ "" then
        "<p style='margin-top:0;margin-bottom:0.8rem;color:#334155;'>"
          ++ escape s.description ++ "</p>"
      else "")
      ++ "<table border='1' cellspacing='0' cellpadding='6' style='border-collapse:collapse;margin-bottom:1.5rem;width:100%;'>"
      ++ (if s.headers ≠ [] then
          "<thead><tr>"
            ++ String.join (s.headers.map (fun header =>
                "<th style='background-color:#0f172a;color:#ffffff;text-align:left;'>"
                  ++ escape header ++ "</th>"))
            ++ "</tr></thead>"
        else "")
      ++ "<tbody>", "</tbody></table>", ?_⟩
    unfold seccionHtml sinRegistrosRow
    rw [if_neg hrows', hmax]

/-- C4 witness: a concrete export on one empty section. -/
theorem claim_C4_excel_sections_response_witness :
    (excel_sections_response "r.xls" [⟨"T", "", ["A", "B"], []⟩]).contentType
        = "application/vnd.ms-excel" ∧
    (∃ pre post, seccionHtml ⟨"T", "", ["A", "B"], []⟩
        = pre ++ sinRegistrosRow 2 ++ post) :=
  ⟨(claim_C4_excel_sections_response "r.xls" [⟨"T", "", ["A", "B"], []⟩]).1,
   (claim_C4_excel_sections_response "r.xls" [⟨"T", "", ["A", "B"], []⟩]).2.2.2.2.2
     ⟨"T", "", ["A", "B"], []⟩ (by decide) rfl (by decide)⟩

end Sabueso
